import Mathlib

/-!
Verification development for the Lonliest-Place-on-Earth repository.

The three Python source files are shallowly embedded over exact rational
arithmetic (`ℚ`):

* `LonelyKMeans.py` — population-weighted centroid and its antipodal point;
* `LonelyBorder.py` — occupancy mask, Euclidean distance transform,
  brute-force nearest-populated-area scan, geodesic distance wrapper;
* `VoronoiLonely.py` — percentile-based downsampling, batched Voronoi
  candidate generation, land filtering, farthest-vertex selection.

Floating-point values of the source are modelled by rationals. Euclidean
distances are represented by their squares throughout: the square root is
strictly monotone on nonnegative numbers, so every comparison the source
performs on distances (argmax scans, strict `>` tests against accumulators
starting at 0) is performed identically on squared distances, and a reported
distance value `d` of the source corresponds to the reported value `d * d`
here.

External libraries (scipy, sklearn, shapely, pyproj, rasterio) are embedded
as follows: pure documented math (numpy percentile with linear
interpolation, exact Euclidean distance transform, affine transforms,
point-to-multipoint minimum distance) is written out directly; calls whose
values the source merely pipes through (pyproj `Geod.inv`, scipy `Voronoi`
vertex extraction, shapely polygon containment, MiniBatchKMeans cluster
centers) are parameters of the embedding, so every theorem quantifies over
their behaviour.
-/

/-- Affine georeferencing transform, as in rasterio: row-major coefficients
`(a, b, c, d, e, f)` mapping pixel coordinates `(col, row)` to world
coordinates `x = a*col + b*row + c`, `y = d*col + e*row + f`.
`transform[0] = a` and `transform[4] = e` are the pixel sizes. -/
structure Affine where
  a : ℚ
  b : ℚ
  c : ℚ
  d : ℚ
  e : ℚ
  f : ℚ
deriving DecidableEq

/-- Apply an affine transform to pixel coordinates `(col, row)`,
mirroring rasterio's `transform * (col, row)`. -/
def Affine.apply (t : Affine) (col row : ℚ) : ℚ × ℚ :=
  (t.a * col + t.b * row + t.c, t.d * col + t.e * row + t.f)

/-- A raster band as read by `src.read(1)`: a 2D array of cell values,
row-major. -/
abbrev Raster := List (List ℚ)

/-- Value of cell `(row i, col j)`; out-of-range reads (never performed by
the embedded code on rectangular rasters) default to 0. -/
def cellAt (r : Raster) (i j : Nat) : ℚ := (r.getD i []).getD j 0

/-- All cell values of the raster, flattened row-major — the order in which
numpy flattens a 2D array. -/
def allVals (r : Raster) : List ℚ := r.flatten

/-- Number of columns of a (rectangular) raster, `population.shape[1]`. -/
def ncols (r : Raster) : Nat := (r.getD 0 []).length

/-- Indices `(i, j)` of the cells whose value satisfies `p`, in row-major
scan order — the order `np.where` returns. -/
def cellsWhere (p : ℚ → Bool) (r : Raster) : List (Nat × Nat) :=
  ((List.range r.length).map (fun i =>
    ((List.range ((r.getD i []).length)).filter
      (fun j => p ((r.getD i []).getD j 0))).map (fun j => (i, j)))).flatten

/-- Python's `abs`. -/
def pyabs (x : ℚ) : ℚ := if x < 0 then -x else x

/-- Python's binary minimum over rationals (used for fold-based minima). -/
def qmin (a b : ℚ) : ℚ := if a ≤ b then a else b

/-- Python's modulo operator on rationals: `x % y = x - y * floor(x / y)`
(sign follows the divisor, matching CPython). -/
def pymod (x y : ℚ) : ℚ := x - y * ((⌊x / y⌋ : ℤ) : ℚ)

/-- Membership in `cellsWhere` is exactly in-bounds position plus the
predicate holding at the cell. -/
theorem mem_cellsWhere {p : ℚ → Bool} {r : Raster} {i j : Nat} :
    (i, j) ∈ cellsWhere p r ↔
      i < r.length ∧ j < (r.getD i []).length ∧ p (cellAt r i j) = true := by
  unfold cellsWhere cellAt
  rw [List.mem_flatten]
  constructor
  · rintro ⟨L, hL, hmem⟩
    rw [List.mem_map] at hL
    obtain ⟨i', hi', rfl⟩ := hL
    rw [List.mem_map] at hmem
    obtain ⟨j', hj', hpair⟩ := hmem
    injection hpair with h1 h2
    subst h1; subst h2
    rw [List.mem_filter, List.mem_range] at hj'
    exact ⟨List.mem_range.mp hi', hj'.1, hj'.2⟩
  · rintro ⟨hi, hj, hp⟩
    refine ⟨_, List.mem_map.mpr ⟨i, List.mem_range.mpr hi, rfl⟩, ?_⟩
    exact List.mem_map.mpr ⟨j, List.mem_filter.mpr ⟨List.mem_range.mpr hj, hp⟩, rfl⟩

/-! Embedding of `LonelyKMeans.py`. -/

/-- Pixel-center world coordinates, mirroring `rasterio.transform.xy`
with its default `offset="center"`: the function returns the pair
`(x, y)` of the world coordinates of the center of pixel `(row, col)`,
i.e. the affine transform applied to `(col + 1/2, row + 1/2)`. -/
def rasterioXY (t : Affine) (row col : Nat) : ℚ × ℚ :=
  t.apply ((col : ℚ) + 1 / 2) ((row : ℚ) + 1 / 2)

/-- Weighted mean of a list of samples — the unique cluster center computed
by `KMeans(n_clusters=1).fit(samples, sample_weight=weights)`: with a single
cluster every sample is assigned to it and the center update rule makes the
center the weighted mean of all samples, whatever the initialisation. -/
def weightedMean (samples : List ℚ) (weights : List ℚ) : ℚ :=
  ((samples.zip weights).foldl (fun s p => s + p.1 * p.2) 0) /
    (weights.foldl (· + ·) 0)

/-- Embedding of `find_population_centroid` (LonelyKMeans.py lines 14–26).
`np.where(population_data > 0)` lists positive cells row-major;
`rasterio.transform.xy` returns the pair `(xs, ys)` of world coordinates,
which the source unpacks as `lats, lons = ...` — so the variable `lats`
receives the x (longitude) coordinates and `lons` the y (latitude)
coordinates. The weights are the positive cell values in the same order,
and the returned pair is `kmeans.cluster_centers_[0]`, i.e. the weighted
mean of the `(lats, lons)` columns, interpreted by the caller as
`(centroid_lat, centroid_lon)`. -/
def find_population_centroid (r : Raster) (t : Affine) : ℚ × ℚ :=
  let cells := cellsWhere (fun v => decide (0 < v)) r
  let lats := cells.map (fun c => (rasterioXY t c.1 c.2).1)
  let lons := cells.map (fun c => (rasterioXY t c.1 c.2).2)
  let weights := cells.map (fun c => cellAt r c.1 c.2)
  (weightedMean lats weights, weightedMean lons weights)

/-- Embedding of `antipodal_point` (LonelyKMeans.py lines 28–29):
`return -lat, (lon + 180) % 360 - 180`, with Python's `%`. -/
def antipodal_point (lat lon : ℚ) : ℚ × ℚ :=
  (-lat, pymod (lon + 180) 360 - 180)

/-! Concrete inputs for the LonelyKMeans claims. -/

/-- Raster with two occupied cells of equal weight 10 in one row. -/
def popTwoCells : Raster := [[10, 10]]

/-- Transform placing the centers of the two cells of `popTwoCells` at
world coordinates `(lon 0, lat 0)` and `(lon 10, lat 0)`: column scale 10
with offset −5, row scale 1 with offset −1/2. -/
def trTwoCells : Affine := ⟨10, 0, -5, 0, 1, -1/2⟩

/-- C1: claimed — for every `(lat, lon)` the antipodal-point operation
returns `(-lat, lon + 180 normalized into [-180,180))`, in particular
`antipodal_point 0 5 = (0, -175)`. The code computes
`(lon + 180) % 360 - 180`, which is the identity normalization of `lon`
itself (not of `lon + 180`): at the failing input `lat = 0, lon = 5` it
returns `(0, 5)`, not the claimed `(0, -175)` — the longitude is never
shifted to the opposite meridian. -/
theorem antipodal_point_keeps_longitude :
    antipodal_point 0 5 = (0, 5) ∧ (antipodal_point 0 5).2 ≠ -175 := by
  have h : antipodal_point 0 5 = (0, 5) := by
    norm_num [antipodal_point, pymod]
  exact ⟨h, by rw [h]; norm_num⟩

/-- C2: claimed — for a raster with two occupied cells of equal weight at
geographic `(lat 0, lon 0)` and `(lat 0, lon 10)`, the weighted centroid
computation returns `(lat 0, lon 5)`. The code unpacks the `(xs, ys)`
result of `rasterio.transform.xy` as `lats, lons`, so the pair it returns
is `(mean longitude, mean latitude) = (5, 0)`: the coordinates are swapped
relative to the claimed `(0, 5)`. -/
theorem find_population_centroid_swapped :
    find_population_centroid popTwoCells trTwoCells = (5, 0) ∧
      ((5 : ℚ), (0 : ℚ)) ≠ ((0 : ℚ), (5 : ℚ)) := by
  constructor
  · norm_num [find_population_centroid, cellsWhere, popTwoCells, trTwoCells,
      cellAt, rasterioXY, Affine.apply, weightedMean, List.filter,
      List.range_succ, List.range_zero]
  · norm_num [Prod.ext_iff]

/-! Embedding of `LonelyBorder.py`. -/

/-- Embedding of `haversine_distance` (LonelyBorder.py lines 15–18). The
pyproj call `Geod(ellps="WGS84").inv(lon1, lat1, lon2, lat2)` is an
external library computation, taken as the parameter `geodInv`; the
function returns its third component divided by 1000, with no validation
of any kind on the input coordinates. -/
def haversine_distance (geodInv : ℚ → ℚ → ℚ → ℚ → ℚ)
    (lon1 lat1 lon2 lat2 : ℚ) : ℚ :=
  geodInv lon1 lat1 lon2 lat2 / 1000

/-- A coordinate pair inside the valid geographic domain
`[-180, 180] × [-90, 90]` — stated from the spec's words, only used to
formulate the validation claim about `haversine_distance`. -/
def validCoordinate (lon lat : ℚ) : Prop :=
  -180 ≤ lon ∧ lon ≤ 180 ∧ -90 ≤ lat ∧ lat ≤ 90

/-- The binary mask of `find_furthest_point` (LonelyBorder.py line 22):
`((population == 0) | (population == nodata)).astype(np.uint8)` — 1 on
unoccupied cells (value exactly 0 or exactly the no-data sentinel), 0 on
occupied cells. -/
def maskVal (nodata v : ℚ) : Nat :=
  if v = 0 ∨ v = nodata then 1 else 0

/-- A cell counts as occupied for the exact solver iff its mask value is 0. -/
def solverOccupied (v nodata : ℚ) : Bool :=
  decide (maskVal nodata v = 0)

/-- The populated-cell test of the module-level nearest-populated-area scan
(LonelyBorder.py lines 87 and 109): `population[i, j] > 0 and
population[i, j] != nodata`. -/
def verifierPopulated (v nodata : ℚ) : Bool :=
  decide (0 < v ∧ v ≠ nodata)

/-- Positions of the occupied cells (mask value 0), row-major. -/
def occupiedCells (r : Raster) (nodata : ℚ) : List (Nat × Nat) :=
  cellsWhere (fun v => solverOccupied v nodata) r

/-- Squared anisotropically-scaled Euclidean distance between grid cells
`(i, j)` and `c`, with per-axis sampling `sy` (rows) and `sx` (columns) —
the metric `distance_transform_edt(mask, sampling=[sy, sx])` uses. -/
def scaledSqDist (sy sx : ℚ) (i j : Nat) (c : Nat × Nat) : ℚ :=
  sy * sy * ((i : ℚ) - (c.1 : ℚ)) * ((i : ℚ) - (c.1 : ℚ)) +
    sx * sx * ((j : ℚ) - (c.2 : ℚ)) * ((j : ℚ) - (c.2 : ℚ))

/-- Squared value of the exact Euclidean distance transform at cell
`(i, j)`: 0 on cells whose mask is 0 (occupied), and the minimum squared
scaled distance to any occupied cell otherwise — scipy's
`distance_transform_edt` computes exactly the Euclidean distance to the
nearest zero element of the mask. (A mask with no zero element at all is
degenerate for the scipy call; the embedding returns 0 there.) -/
def edtSqAt (r : Raster) (nodata sy sx : ℚ) (i j : Nat) : ℚ :=
  if maskVal nodata (cellAt r i j) = 0 then 0
  else
    match (occupiedCells r nodata).map (scaledSqDist sy sx i j) with
    | [] => 0
    | d :: ds => ds.foldl qmin d

/-- The distance-transform field flattened row-major, as `np.argmax` sees
it (squared values; the square root is monotone so the argmax position is
identical). -/
def distField (r : Raster) (nodata sy sx : ℚ) : List ℚ :=
  ((List.range r.length).map (fun i =>
    (List.range (ncols r)).map (fun j => edtSqAt r nodata sy sx i j))).flatten

/-- Index of the first maximal element (the `np.argmax` tie-break: first
occurrence in the flattened row-major order), via a scan that replaces the
best index only on a strictly larger value. -/
def argmaxAux (best : Nat) (bv : ℚ) (idx : Nat) : List ℚ → Nat
  | [] => best
  | v :: vs => if bv < v then argmaxAux idx v (idx + 1) vs
               else argmaxAux best bv (idx + 1) vs

/-- Embedding of `np.argmax` over a flattened array. -/
def argmaxIdx : List ℚ → Nat
  | [] => 0
  | v :: vs => argmaxAux 0 v 1 vs

/-- Embedding of `pixel_to_coordinates` (LonelyBorder.py lines 37–39):
`lon, lat = transform * (col, row)` — note: no center offset here, unlike
`rasterio.transform.xy`. -/
def pixel_to_coordinates (col row : ℚ) (t : Affine) : ℚ × ℚ :=
  t.apply col row

/-- Embedding of `find_furthest_point` (LonelyBorder.py lines 20–35):
builds the mask, runs the exact distance transform with sampling
`[abs(transform[4]), abs(transform[0])]`, takes the row-major argmax,
converts `(col, row)` of that position through the transform and returns
`(lon, lat, distance)` — with the distance represented by its square. -/
def find_furthest_point (r : Raster) (t : Affine) (nodata : ℚ) :
    ℚ × ℚ × ℚ :=
  let sx := pyabs t.a
  let sy := pyabs t.e
  let distances := distField r nodata sy sx
  let k := argmaxIdx distances
  let row := k / ncols r
  let col := k % ncols r
  let lonlat := pixel_to_coordinates (col : ℚ) (row : ℚ) t
  (lonlat.1, lonlat.2, distances.getD k 0)

/-- Embedding of the module-level nearest-populated-area scan
(LonelyBorder.py lines 82–93): scan all cells row-major; for each cell with
`population > 0 and population != nodata` convert `(j, i)` through
`pixel_to_coordinates` and keep the minimum `haversine_distance` to the
candidate point. `none` models the initial `float('inf')` that survives
when no cell passes the test. -/
def verifierMinDistance (geodInv : ℚ → ℚ → ℚ → ℚ → ℚ)
    (flon flat : ℚ) (r : Raster) (t : Affine) (nodata : ℚ) : Option ℚ :=
  (cellsWhere (fun v => verifierPopulated v nodata) r).foldl
    (fun acc c =>
      let lonlat := pixel_to_coordinates (c.2 : ℚ) (c.1 : ℚ) t
      let d := haversine_distance geodInv flon flat lonlat.1 lonlat.2
      match acc with
      | none => some d
      | some m => if d < m then some d else some m)
    none

/-- The 4×4 raster of the end-to-end scenario: a single occupied cell of
value 10 at `(row 0, col 0)`, all other cells 0. -/
def popSingle : Raster :=
  [[10, 0, 0, 0], [0, 0, 0, 0], [0, 0, 0, 0], [0, 0, 0, 0]]

/-- The identity transform `(col, row) ↦ (col, row)` with 1°×1° cells. -/
def trIdentity : Affine := ⟨1, 0, 0, 0, 1, 0⟩

/-- On the raster of `popSingle` with sentinel −1 (absent from the grid),
the only occupied cell is `(0, 0)`. -/
theorem occupiedCells_popSingle :
    occupiedCells [[10, 0, 0, 0], [0, 0, 0, 0], [0, 0, 0, 0], [0, 0, 0, 0]]
      (-1) = [(0, 0)] := by
  norm_num [occupiedCells, cellsWhere, solverOccupied, maskVal,
    cellAt, List.range_succ, List.range_zero, List.filter]

/-- C3: for the 4×4 raster with a single occupied cell of value 10 at
`(row 0, col 0)`, sentinel −1 absent from the grid, identity transform and
1°×1° cells, the exact solver returns geographic location `(3, 3)` with
maximum planar distance √18 (squared distance 18), attained at the
flattened argmax index 15, i.e. grid cell `(row 3, col 3)`; and 18 is
exactly the squared cell-size-scaled Euclidean distance from the farthest
corner `(3, 3)` to the single occupied cell `(0, 0)`. -/
theorem find_furthest_point_popSingle :
    find_furthest_point popSingle trIdentity (-1) = (3, 3, 18) ∧
      argmaxIdx (distField popSingle (-1) 1 1) = 15 ∧
      (18 : ℚ) = scaledSqDist 1 1 3 3 (0, 0) := by
  have hd : distField popSingle (-1) 1 1 =
      [0, 1, 4, 9, 1, 2, 5, 10, 4, 5, 8, 13, 9, 10, 13, 18] := by
    norm_num [distField, ncols, popSingle, edtSqAt, occupiedCells_popSingle,
      maskVal, cellAt, scaledSqDist, List.range_succ, List.range_zero]
  have ha : argmaxIdx (distField popSingle (-1) 1 1) = 15 := by
    rw [hd]
    norm_num [argmaxIdx, argmaxAux]
  refine ⟨?_, ha, by norm_num [scaledSqDist]⟩
  have hab : pyabs (1 : ℚ) = 1 := by norm_num [pyabs]
  simp only [find_furthest_point, trIdentity, hab]
  rw [hd] at ha
  rw [hd, ha]
  norm_num [ncols, popSingle, pixel_to_coordinates, Affine.apply,
    List.getD, Prod.ext_iff]

/-- C5: claimed — a call to the geodesic distance function with a
coordinate outside `[-180,180]×[-90,90]` fails with an `InvalidCoordinate`
condition instead of returning a distance. Counterexample: at the
out-of-range longitude 200 the function simply returns the library result
divided by 1000 (here 6, with a library stub returning 6000 meters) — the
source performs no validation and has no failure path at all. -/
theorem haversine_no_validation :
    ¬ validCoordinate 200 0 ∧
      haversine_distance (fun _ _ _ _ => 6000) 200 0 0 0 = 6 := by
  constructor
  · intro h
    rcases h with ⟨-, h2, -⟩
    norm_num at h2
  · norm_num [haversine_distance]

/-- C5 (amended): the geodesic distance function performs no coordinate
validation — even on inputs outside `[-180,180]×[-90,90]` it returns the
library geodesic result divided by 1000 rather than failing. -/
theorem haversine_total_on_invalid (geodInv : ℚ → ℚ → ℚ → ℚ → ℚ)
    (lon1 lat1 lon2 lat2 : ℚ) (_h : ¬ validCoordinate lon1 lat1) :
    haversine_distance geodInv lon1 lat1 lon2 lat2 =
      geodInv lon1 lat1 lon2 lat2 / 1000 := rfl

/-- Witness for the amended C5 theorem at the concrete out-of-range
longitude 200. -/
theorem haversine_total_on_invalid_witness :
    haversine_distance (fun _ _ _ _ => 6000) 200 0 0 0 =
      (fun _ _ _ _ => (6000 : ℚ)) 200 0 0 0 / 1000 :=
  haversine_total_on_invalid _ 200 0 0 0 (by
    intro h
    rcases h with ⟨-, h2, -⟩
    norm_num at h2)

/-- C6: the occupancy mask of the exact solver marks a cell unoccupied
(mask value 1) iff its value equals 0 or equals the no-data sentinel;
every other value is marked occupied (mask value 0), and in particular
every negative non-sentinel value is occupied. -/
theorem maskVal_unoccupied_iff (v nodata : ℚ) :
    (maskVal nodata v = 1 ↔ (v = 0 ∨ v = nodata)) ∧
      ((v ≠ 0 ∧ v ≠ nodata) → maskVal nodata v = 0) ∧
      (v < 0 → v ≠ nodata → maskVal nodata v = 0) := by
  refine ⟨?_, ?_, ?_⟩
  · by_cases h : v = 0 ∨ v = nodata <;> simp [maskVal, h]
  · rintro ⟨h1, h2⟩
    simp [maskVal, h1, h2]
  · intro hneg hnd
    simp [maskVal, ne_of_lt hneg, hnd]

/-- Witness for C6 at the negative non-sentinel value −5 with sentinel
−200: the cell is marked occupied. -/
theorem maskVal_unoccupied_iff_witness : maskVal (-200) (-5) = 0 :=
  (maskVal_unoccupied_iff (-5) (-200)).2.2 (by norm_num) (by norm_num)

/-- An in-bounds cell's value occurs among the flattened raster values. -/
theorem cellAt_mem_allVals {r : Raster} {i j : Nat}
    (hi : i < r.length) (hj : j < (r.getD i []).length) :
    cellAt r i j ∈ allVals r := by
  unfold cellAt allVals
  rw [List.mem_flatten]
  refine ⟨r.getD i [], ?_, ?_⟩
  · have hrow : r.getD i [] = r[i] := by
      simp [List.getD_eq_getElem?_getD, List.getElem?_eq_getElem hi]
    rw [hrow]
    exact List.getElem_mem hi
  · generalize r.getD i [] = L at hj ⊢
    rw [List.getD_eq_getElem?_getD, List.getElem?_eq_getElem hj,
      Option.getD_some]
    exact List.getElem_mem hj

/-- Every flattened raster value is the value of some in-bounds cell. -/
theorem exists_cell_of_mem_allVals {r : Raster} {v : ℚ}
    (h : v ∈ allVals r) :
    ∃ i j, i < r.length ∧ j < (r.getD i []).length ∧ cellAt r i j = v := by
  unfold allVals at h
  rw [List.mem_flatten] at h
  obtain ⟨row, hrow, hv⟩ := h
  obtain ⟨⟨i, hi⟩, hEqRow⟩ := List.mem_iff_get.mp hrow
  obtain ⟨⟨j, hj⟩, hEqV⟩ := List.mem_iff_get.mp hv
  have hgetD : r.getD i [] = row := by
    rw [List.getD_eq_getElem?_getD, List.getElem?_eq_getElem hi]
    simpa using hEqRow
  refine ⟨i, j, hi, ?_, ?_⟩
  · rw [hgetD]; exact hj
  · unfold cellAt
    rw [hgetD, List.getD_eq_getElem?_getD, List.getElem?_eq_getElem hj]
    simpa using hEqV

/-- C8: the exact solver's occupancy test and the verifier's populated test
differ exactly on negative non-sentinel values; consequently, on a raster
whose only nonzero values are negative non-sentinel artifacts, the distance
transform has a nonempty occupied set while the verifier's scan finds no
populated cell and its minimum distance stays infinite (`none`). -/
theorem verifier_solver_predicates_diverge (geodInv : ℚ → ℚ → ℚ → ℚ → ℚ)
    (r : Raster) (t : Affine) (nodata flon flat : ℚ)
    (h1 : ∀ v ∈ allVals r, v = 0 ∨ (v < 0 ∧ v ≠ nodata))
    (h2 : ∃ v ∈ allVals r, v ≠ 0) :
    (∀ v nd : ℚ,
        solverOccupied v nd ≠ verifierPopulated v nd ↔ (v < 0 ∧ v ≠ nd)) ∧
      occupiedCells r nodata ≠ [] ∧
      verifierMinDistance geodInv flon flat r t nodata = none := by
  refine ⟨?_, ?_, ?_⟩
  · intro v nd
    rcases lt_trichotomy v 0 with hv | hv | hv
    · by_cases hnd : v = nd
      · simp [solverOccupied, verifierPopulated, maskVal, hnd, hv,
          not_lt.mpr hv.le]
      · simp [solverOccupied, verifierPopulated, maskVal, ne_of_lt hv, hnd,
          hv, not_lt.mpr hv.le]
    · subst hv
      simp [solverOccupied, verifierPopulated, maskVal]
    · by_cases hnd : v = nd
      · simp [solverOccupied, verifierPopulated, maskVal, hnd,
          not_lt.mpr hv.le]
      · simp [solverOccupied, verifierPopulated, maskVal, ne_of_gt hv, hnd,
          hv, not_lt.mpr hv.le]
  · obtain ⟨v, hvmem, hvne⟩ := h2
    rcases h1 v hvmem with rfl | ⟨hneg, hnd⟩
    · exact absurd rfl hvne
    obtain ⟨i, j, hi, hj, hcell⟩ := exists_cell_of_mem_allVals hvmem
    have hmem : (i, j) ∈ occupiedCells r nodata := by
      rw [occupiedCells, mem_cellsWhere]
      refine ⟨hi, hj, ?_⟩
      rw [hcell]
      simp [solverOccupied, maskVal, ne_of_lt hneg, hnd]
    exact List.ne_nil_of_mem hmem
  · have hempty : cellsWhere (fun v => verifierPopulated v nodata) r = [] := by
      rw [List.eq_nil_iff_forall_not_mem]
      rintro ⟨i, j⟩ hx
      rw [mem_cellsWhere] at hx
      obtain ⟨hi, hj, hp⟩ := hx
      have hv := h1 _ (cellAt_mem_allVals hi hj)
      rw [verifierPopulated, decide_eq_true_eq] at hp
      rcases hv with h0 | ⟨hneg, -⟩
      · rw [h0] at hp
        exact absurd hp.1 (lt_irrefl 0)
      · exact absurd hp.1 (not_lt.mpr hneg.le)
    unfold verifierMinDistance
    rw [hempty]
    rfl

/-- Raster whose only nonzero value is a negative non-sentinel artifact. -/
def rasterNegOnly : Raster := [[-5, 0]]

/-- Witness for C8 with sentinel −999: the solver sees an occupied cell on
`rasterNegOnly` while the verifier scan returns no distance. -/
theorem verifier_solver_predicates_diverge_witness :
    occupiedCells rasterNegOnly (-999) ≠ [] ∧
      verifierMinDistance (fun _ _ _ _ => 0) 0 0 rasterNegOnly trIdentity
        (-999) = none := by
  have h := verifier_solver_predicates_diverge (fun _ _ _ _ => 0)
    rasterNegOnly trIdentity (-999) 0 0
    (by
      intro v hv
      simp only [rasterNegOnly, allVals, List.flatten, List.mem_cons,
        List.mem_singleton, List.append_nil] at hv
      rcases hv with rfl | hv
      · right
        norm_num
      · left
        simpa using hv)
    ⟨-5, by simp [rasterNegOnly, allVals], by norm_num⟩
  exact ⟨h.2.1, h.2.2⟩

/-! Embedding of `VoronoiLonely.py`. -/

/-- Insert a value into an ascending-sorted list. -/
def insertSorted (x : ℚ) : List ℚ → List ℚ
  | [] => [x]
  | y :: ys => if x ≤ y then x :: y :: ys else y :: insertSorted x ys

/-- Ascending sort (insertion sort) — the sorted order `np.percentile`
works on; only the sorted multiset matters for the percentile value. -/
def sortAsc (l : List ℚ) : List ℚ := l.foldr insertSorted []

/-- Embedding of `np.percentile(a, q)` with numpy's default linear
interpolation: for the flattened sorted values `s` of length `n`, the
result is `s[i] + frac * (s[i+1] - s[i])` where `i + frac = (n-1)*q/100`.
The source calls it with `q = 90` over the entire raster. -/
def percentile (l : List ℚ) (q : ℚ) : ℚ :=
  let s := sortAsc l
  let n := s.length
  let h : ℚ := ((n : ℚ) - 1) * q / 100
  let i : Nat := (⌊h⌋).toNat
  let lo := s.getD i 0
  let hi := s.getD (i + 1) lo
  lo + (h - (i : ℚ)) * (hi - lo)

/-- The qualifying points of `downsample_population_points`
(VoronoiLonely.py lines 17–22): cells whose value strictly exceeds the
90th percentile of the whole raster (`np.where(population_data >
np.percentile(population_data, 90))`), row-major; the source then unpacks
`rasterio.transform.xy`'s `(xs, ys)` as `lats, lons` and column-stacks
`[lons, lats]`, so each point is the pair `(y, x)` of the cell-center
world coordinates. -/
def qualifyingPoints (r : Raster) (t : Affine) : List (ℚ × ℚ) :=
  let thr := percentile (allVals r) 90
  (cellsWhere (fun v => decide (thr < v)) r).map
    (fun c => ((rasterioXY t c.1 c.2).2, (rasterioXY t c.1 c.2).1))

/-- Embedding of `downsample_population_points` (VoronoiLonely.py lines
16–28): computes the qualifying points and hands them to
`MiniBatchKMeans(n_clusters=target_points, batch_size=1000).fit`, whose
`cluster_centers_` are the external clusterer's output — the parameter
`centersFn`; an `Except.error` models the exception the clusterer raises. -/
def downsample_population_points
    (centersFn : Nat → List (ℚ × ℚ) → Except String (List (ℚ × ℚ)))
    (r : Raster) (t : Affine) (target_points : Nat) :
    Except String (List (ℚ × ℚ)) :=
  centersFn target_points (qualifyingPoints r t)

/-- Model of sklearn's `MiniBatchKMeans.fit` + `cluster_centers_` contract:
`fit` raises `ValueError` when the number of samples is smaller than
`n_clusters`, and otherwise `cluster_centers_` holds exactly `n_clusters`
rows (modelled here, up to the unspecified center positions, by the first
`k` input points). -/
def sklearnCenters (k : Nat) (pts : List (ℚ × ℚ)) :
    Except String (List (ℚ × ℚ)) :=
  if pts.length < k then Except.error "n_samples should be >= n_clusters"
  else Except.ok (pts.take k)

/-- Number of rows an `Except`-valued downsampling produced, `none` when it
raised — a shape observation used to state the downsampler claims. -/
def exceptLen : Except String (List (ℚ × ℚ)) → Option Nat
  | Except.ok l => some l.length
  | Except.error _ => none

/-- Embedding of `process_voronoi_in_batches` (VoronoiLonely.py lines
30–41): slice the points into batches `points[i:i+batch_size]` for `i` in
`range(0, len(points), batch_size)`; per batch, the scipy call
`Voronoi(batch).vertices` is the external parameter `vorFn`, with `none`
modelling a raised exception — such a batch is skipped; all other
vertex lists are concatenated in order. -/
def process_voronoi_in_batches
    (vorFn : List (ℚ × ℚ) → Option (List (ℚ × ℚ)))
    (points : List (ℚ × ℚ)) (batch_size : Nat) : List (ℚ × ℚ) :=
  ((List.range ((points.length + batch_size - 1) / batch_size)).map
    (fun b => (points.drop (b * batch_size)).take batch_size)).foldl
    (fun acc batch =>
      match vorFn batch with
      | some vs => acc ++ vs
      | none => acc) []

/-- Squared planar Euclidean distance between two points. -/
def sqDistPt (p q : ℚ × ℚ) : ℚ :=
  (p.1 - q.1) * (p.1 - q.1) + (p.2 - q.2) * (p.2 - q.2)

/-- Squared shapely `Point.distance(MultiPoint(pts))`: the minimum squared
planar distance from `v` to any member (shapely returns 0 for an empty
geometry). -/
def distSqToMultipoint (v : ℚ × ℚ) (pts : List (ℚ × ℚ)) : ℚ :=
  match pts.map (sqDistPt v) with
  | [] => 0
  | d :: ds => ds.foldl qmin d

/-- One step of the farthest-vertex loop (VoronoiLonely.py lines 67–74):
state `(max_distance, furthest_point)`, updated only on a strictly larger
distance — on squared distances, which preserves every comparison. -/
def voronoiStep (pts : List (ℚ × ℚ)) (st : ℚ × Option (ℚ × ℚ))
    (v : ℚ × ℚ) : ℚ × Option (ℚ × ℚ) :=
  if st.1 < distSqToMultipoint v pts then (distSqToMultipoint v pts, some v)
  else st

/-- The farthest-vertex selection loop, started from
`max_distance = 0, furthest_point = None`; returns the final
`furthest_point`. -/
def selectFurthest (land pts : List (ℚ × ℚ)) : Option (ℚ × ℚ) :=
  (land.foldl (voronoiStep pts) (0, none)).2

/-- The land filter (VoronoiLonely.py lines 56–58): keep the vertices
contained in at least one polygon of the world set
(`any(world_gdf.contains(x.geometry))`); each polygon is embedded as its
containment predicate. -/
def landFilter (world : List ((ℚ × ℚ) → Bool))
    (verts : List (ℚ × ℚ)) : List (ℚ × ℚ) :=
  verts.filter (fun v => world.any (fun poly => poly v))

/-- Possible outcomes of `find_remote_point_voronoi`: a returned pair, the
`ValueError` raised when no vertex survives land filtering, a propagated
exception from the downsampling clusterer, or the `AttributeError` crash
of `furthest_point.y` when `furthest_point` is still `None` after the
loop. -/
inductive VorResult where
  | ok : ℚ × ℚ → VorResult
  | errNoLand : VorResult
  | errDownsample : String → VorResult
  | crashNone : VorResult
deriving DecidableEq

/-- Embedding of `find_remote_point_voronoi` (VoronoiLonely.py lines
43–76): downsample (with the call-site default `target_points=1000`),
collect batch Voronoi vertices (batch size 100), keep the land-contained
ones, raise if none survive, select the vertex farthest from the
downsampled multipoint and return `(furthest_point.y, furthest_point.x)`.
(The source's NaN-vertex filter is vacuous over ℚ, where non-finite
coordinates are not representable.) -/
def find_remote_point_voronoi
    (centersFn : Nat → List (ℚ × ℚ) → Except String (List (ℚ × ℚ)))
    (vorFn : List (ℚ × ℚ) → Option (List (ℚ × ℚ)))
    (r : Raster) (t : Affine) (world : List ((ℚ × ℚ) → Bool)) : VorResult :=
  match downsample_population_points centersFn r t 1000 with
  | Except.error e => VorResult.errDownsample e
  | Except.ok downsampled =>
    let vertices := process_voronoi_in_batches vorFn downsampled 100
    let land := landFilter world vertices
    if land = [] then VorResult.errNoLand
    else
      match selectFurthest land downsampled with
      | some p => VorResult.ok (p.2, p.1)
      | none => VorResult.crashNone

/-- Invariant of the farthest-vertex fold: starting from a nonnegative
accumulator, the final selected point is either the initial one, or a list
member at strictly positive squared distance from the multipoint. -/
theorem voronoiFold_cases (pts : List (ℚ × ℚ)) :
    ∀ (l : List (ℚ × ℚ)) (st : ℚ × Option (ℚ × ℚ)), 0 ≤ st.1 →
      (l.foldl (voronoiStep pts) st).2 = st.2 ∨
        ∃ v, (l.foldl (voronoiStep pts) st).2 = some v ∧ v ∈ l ∧
          0 < distSqToMultipoint v pts := by
  intro l
  induction l with
  | nil =>
    intro st _
    left
    rfl
  | cons a l ih =>
    intro st hst
    rw [List.foldl_cons]
    by_cases h : st.1 < distSqToMultipoint a pts
    · have h0 : (0 : ℚ) < distSqToMultipoint a pts := lt_of_le_of_lt hst h
      have hstep : voronoiStep pts st a = (distSqToMultipoint a pts, some a) := by
        simp [voronoiStep, h]
      rw [hstep]
      rcases ih (distSqToMultipoint a pts, some a) h0.le with h1 | ⟨v, hv1, hv2, hv3⟩
      · right
        exact ⟨a, h1, List.mem_cons_self a l, h0⟩
      · right
        exact ⟨v, hv1, List.mem_cons_of_mem a hv2, hv3⟩
    · have hstep : voronoiStep pts st a = st := by
        simp [voronoiStep, h]
      rw [hstep]
      rcases ih st hst with h1 | ⟨v, hv1, hv2, hv3⟩
      · left
        exact h1
      · right
        exact ⟨v, hv1, List.mem_cons_of_mem a hv2, hv3⟩

/-- When every list member is at squared distance 0 from the multipoint,
the farthest-vertex fold never updates its state. -/
theorem voronoiFold_allzero (pts : List (ℚ × ℚ)) :
    ∀ (l : List (ℚ × ℚ)) (st : ℚ × Option (ℚ × ℚ)), 0 ≤ st.1 →
      (∀ v ∈ l, distSqToMultipoint v pts = 0) →
      l.foldl (voronoiStep pts) st = st := by
  intro l
  induction l with
  | nil =>
    intro st _ _
    rfl
  | cons a l ih =>
    intro st hst hz
    rw [List.foldl_cons]
    have hda : distSqToMultipoint a pts = 0 := hz a (List.mem_cons_self a l)
    have hstep : voronoiStep pts st a = st := by
      simp [voronoiStep, hda, not_lt.mpr hst]
    rw [hstep]
    exact ih st hst (fun v hv => hz v (List.mem_cons_of_mem a hv))

/-- A selected farthest point is a member of the candidate list, at
strictly positive squared distance from the multipoint. -/
theorem selectFurthest_some {land pts : List (ℚ × ℚ)} {v : ℚ × ℚ}
    (h : selectFurthest land pts = some v) :
    v ∈ land ∧ 0 < distSqToMultipoint v pts := by
  unfold selectFurthest at h
  rcases voronoiFold_cases pts land (0, none) le_rfl with h1 | ⟨w, hw1, hw2, hw3⟩
  · rw [h1] at h
    exact Option.noConfusion h
  · rw [hw1] at h
    injection h with h
    subst h
    exact ⟨hw2, hw3⟩

/-- When every candidate is at squared distance exactly 0, the selection
loop ends with `furthest_point = None`. -/
theorem selectFurthest_none {land pts : List (ℚ × ℚ)}
    (hz : ∀ v ∈ land, distSqToMultipoint v pts = 0) :
    selectFurthest land pts = none := by
  unfold selectFurthest
  rw [voronoiFold_allzero pts land (0, none) le_rfl hz]

/-- C7: whenever the Voronoi candidate solver returns a point, that point
is (the `(y, x)` reordering of) a Voronoi vertex that survived land
filtering — hence contained in at least one polygon of the supplied land
polygon set — and whenever no vertex survives land filtering (on a
successfully downsampled input) the solver raises the no-candidate
`ValueError` instead of returning a point. This holds for every clusterer,
every Voronoi vertex extractor and every polygon set. -/
theorem find_remote_returns_land_vertex
    (centersFn : Nat → List (ℚ × ℚ) → Except String (List (ℚ × ℚ)))
    (vorFn : List (ℚ × ℚ) → Option (List (ℚ × ℚ)))
    (r : Raster) (t : Affine) (world : List ((ℚ × ℚ) → Bool)) :
    (∀ p, find_remote_point_voronoi centersFn vorFn r t world =
        VorResult.ok p →
      ∃ ds v, downsample_population_points centersFn r t 1000 =
          Except.ok ds ∧
        v ∈ landFilter world (process_voronoi_in_batches vorFn ds 100) ∧
        world.any (fun poly => poly v) = true ∧ p = (v.2, v.1)) ∧
    (∀ ds, downsample_population_points centersFn r t 1000 =
        Except.ok ds →
      landFilter world (process_voronoi_in_batches vorFn ds 100) = [] →
      find_remote_point_voronoi centersFn vorFn r t world =
        VorResult.errNoLand) := by
  constructor
  · intro p hp
    unfold find_remote_point_voronoi at hp
    cases hds : downsample_population_points centersFn r t 1000 with
    | error e =>
      rw [hds] at hp
      exact VorResult.noConfusion hp
    | ok ds =>
      rw [hds] at hp
      dsimp only at hp
      by_cases hland :
          landFilter world (process_voronoi_in_batches vorFn ds 100) = []
      · rw [if_pos hland] at hp
        exact VorResult.noConfusion hp
      · rw [if_neg hland] at hp
        cases hsel : selectFurthest
            (landFilter world (process_voronoi_in_batches vorFn ds 100))
            ds with
        | none =>
          rw [hsel] at hp
          exact VorResult.noConfusion hp
        | some v =>
          rw [hsel] at hp
          injection hp with hp
          obtain ⟨hmem, -⟩ := selectFurthest_some hsel
          have hany := (List.mem_filter.mp hmem).2
          exact ⟨ds, v, rfl, hmem, hany, hp.symm⟩
  · intro ds hds hland
    unfold find_remote_point_voronoi
    rw [hds]
    dsimp only
    rw [if_pos hland]

/-- A clusterer that never fails and returns its input — used to
instantiate the quantified external parameters in witnesses. -/
def wCfOk : Nat → List (ℚ × ℚ) → Except String (List (ℚ × ℚ)) :=
  fun _ pts => Except.ok pts

/-- A single all-accepting land polygon. -/
def wWorld : List ((ℚ × ℚ) → Bool) := [fun _ => true]

/-- A 1×2 raster with one high cell: its 90th percentile is 9, so exactly
the cell of value 10 qualifies for downsampling. -/
def wRaster : Raster := [[10, 0]]

/-- A Voronoi extractor returning no vertices for any batch. -/
def wVorEmpty : List (ℚ × ℚ) → Option (List (ℚ × ℚ)) := fun _ => some []

/-- A Voronoi extractor returning exactly the center point of the
qualifying cell of `wRaster` — a vertex at distance 0 from the
downsampled population points. -/
def wVorSame : List (ℚ × ℚ) → Option (List (ℚ × ℚ)) :=
  fun _ => some [(1/2, 1/2)]

/-- On `wRaster` with the identity transform, the qualifying points are
exactly the `(y, x)` center of cell `(0, 0)`. -/
theorem qualifyingPoints_wRaster :
    qualifyingPoints wRaster trIdentity = [(1/2, 1/2)] := by
  have hthr : percentile (allVals [[(10 : ℚ), 0]]) 90 = 9 := by
    norm_num [percentile, sortAsc, insertSorted, allVals]
  norm_num [qualifyingPoints, wRaster, hthr, cellsWhere, cellAt, rasterioXY,
    Affine.apply, trIdentity, List.range_succ, List.range_zero, List.filter]

/-- Witness for C7: with the identity clusterer and a vertex extractor
that yields no vertices, no vertex survives land filtering and the solver
reports the no-candidate error. -/
theorem find_remote_returns_land_vertex_witness :
    find_remote_point_voronoi wCfOk wVorEmpty wRaster trIdentity wWorld =
      VorResult.errNoLand := by
  have hds : downsample_population_points wCfOk wRaster trIdentity 1000 =
      Except.ok [(1/2, 1/2)] := by
    unfold downsample_population_points wCfOk
    rw [qualifyingPoints_wRaster]
  exact (find_remote_returns_land_vertex wCfOk wVorEmpty wRaster trIdentity
    wWorld).2 [(1/2, 1/2)] hds rfl

/-- C9: a successful return of the Voronoi candidate solver requires at
least one land-filtered vertex at strictly positive planar distance from
the downsampled population multipoint, and when every surviving land
vertex lies at distance exactly 0 the loop leaves `furthest_point = None`
and the solver crashes dereferencing it, rather than returning a point or
a defined error. -/
theorem find_remote_crashes_on_zero_distances
    (centersFn : Nat → List (ℚ × ℚ) → Except String (List (ℚ × ℚ)))
    (vorFn : List (ℚ × ℚ) → Option (List (ℚ × ℚ)))
    (r : Raster) (t : Affine) (world : List ((ℚ × ℚ) → Bool))
    (ds : List (ℚ × ℚ))
    (hds : downsample_population_points centersFn r t 1000 =
      Except.ok ds) :
    (∀ p, find_remote_point_voronoi centersFn vorFn r t world =
        VorResult.ok p →
      ∃ v ∈ landFilter world (process_voronoi_in_batches vorFn ds 100),
        0 < distSqToMultipoint v ds) ∧
    (landFilter world (process_voronoi_in_batches vorFn ds 100) ≠ [] →
      (∀ v ∈ landFilter world (process_voronoi_in_batches vorFn ds 100),
        distSqToMultipoint v ds = 0) →
      find_remote_point_voronoi centersFn vorFn r t world =
        VorResult.crashNone) := by
  constructor
  · intro p hp
    unfold find_remote_point_voronoi at hp
    rw [hds] at hp
    dsimp only at hp
    by_cases hland :
        landFilter world (process_voronoi_in_batches vorFn ds 100) = []
    · rw [if_pos hland] at hp
      exact VorResult.noConfusion hp
    · rw [if_neg hland] at hp
      cases hsel : selectFurthest
          (landFilter world (process_voronoi_in_batches vorFn ds 100))
          ds with
      | none =>
        rw [hsel] at hp
        exact VorResult.noConfusion hp
      | some v =>
        obtain ⟨hmem, hpos⟩ := selectFurthest_some hsel
        exact ⟨v, hmem, hpos⟩
  · intro hland hz
    unfold find_remote_point_voronoi
    rw [hds]
    dsimp only
    rw [if_neg hland, selectFurthest_none hz]

/-- Witness for C9: with a vertex extractor returning exactly the single
downsampled point, the surviving land vertex is at distance 0 and the
solver ends in the `None`-dereference crash. -/
theorem find_remote_crashes_on_zero_distances_witness :
    find_remote_point_voronoi wCfOk wVorSame wRaster trIdentity wWorld =
      VorResult.crashNone := by
  have hds : downsample_population_points wCfOk wRaster trIdentity 1000 =
      Except.ok [(1/2, 1/2)] := by
    unfold downsample_population_points wCfOk
    rw [qualifyingPoints_wRaster]
  refine (find_remote_crashes_on_zero_distances wCfOk wVorSame wRaster
    trIdentity wWorld [(1/2, 1/2)] hds).2 (by norm_num [landFilter,
      process_voronoi_in_batches, wVorSame, wWorld, List.range_succ,
      List.range_zero, List.filter]) ?_
  intro v hv
  have : v = ((1 : ℚ)/2, (1 : ℚ)/2) := by
    simpa [landFilter, process_voronoi_in_batches, wVorSame, wWorld,
      List.range_succ, List.range_zero, List.filter] using hv
  subst this
  norm_num [distSqToMultipoint, sqDistPt, qmin]

/-- C4 (counterexample to the claim as stated): on a raster with a single
qualifying cell and the call-site default `target_points = 1000`, the
downsampler does not return 1 point — the clusterer, which raises when the
sample count is below `n_clusters` and whose count contract
`sklearnCenters` models, makes the whole call fail. -/
theorem downsample_fails_on_few_points :
    (qualifyingPoints wRaster trIdentity).length = 1 ∧
      downsample_population_points sklearnCenters wRaster trIdentity 1000 =
        Except.error "n_samples should be >= n_clusters" := by
  constructor
  · rw [qualifyingPoints_wRaster]
    rfl
  · unfold downsample_population_points
    rw [qualifyingPoints_wRaster]
    rfl

/-- C4 (amended): for every clusterer satisfying sklearn's
`MiniBatchKMeans` contract (raise when samples < clusters, else exactly
`n_clusters` centers), the downsampler returns exactly `k` points when at
least `k` cells qualify, and when fewer qualifying cells exist than `k` it
fails with the clusterer's error instead of reducing `k` to the available
count. -/
theorem downsample_exact_k_or_error
    (centersFn : Nat → List (ℚ × ℚ) → Except String (List (ℚ × ℚ)))
    (r : Raster) (t : Affine) (k : Nat)
    (hok : ∀ n pts, n ≤ pts.length → exceptLen (centersFn n pts) = some n)
    (herr : ∀ n pts, pts.length < n → exceptLen (centersFn n pts) = none) :
    (k ≤ (qualifyingPoints r t).length →
      exceptLen (downsample_population_points centersFn r t k) = some k) ∧
    ((qualifyingPoints r t).length < k →
      exceptLen (downsample_population_points centersFn r t k) = none) := by
  constructor
  · intro h
    exact hok k _ h
  · intro h
    exact herr k _ h

/-- Witness for the amended C4 theorem, instantiated with the modelled
sklearn clusterer on `wRaster` (1 qualifying cell) and `k = 1000`: the
call fails. -/
theorem downsample_exact_k_or_error_witness :
    exceptLen
      (downsample_population_points sklearnCenters wRaster trIdentity
        1000) = none := by
  refine (downsample_exact_k_or_error sklearnCenters wRaster trIdentity
    1000 ?_ ?_).2 ?_
  · intro n pts h
    simp [sklearnCenters, exceptLen, Nat.not_lt.mpr h, List.length_take,
      Nat.min_eq_left h]
  · intro n pts h
    simp [sklearnCenters, exceptLen, h]
  · rw [qualifyingPoints_wRaster]
    norm_num

/-- Raster with positive cells 10 and 9 padded by nineteen zero cells. -/
def rPadded : Raster :=
  [[10, 9, 0, 0, 0, 0, 0, 0, 0, 0, 0, 0, 0, 0, 0, 0, 0, 0, 0, 0, 0]]

/-- Raster with the same positive cells 10 and 9 and nothing else. -/
def rBare : Raster := [[10, 9]]

/-- Raster with the same positive cells 10 and 9 padded by nineteen cells
holding the no-data sentinel −1. -/
def rSentinel : Raster :=
  [[10, 9, -1, -1, -1, -1, -1, -1, -1, -1, -1, -1, -1, -1, -1, -1, -1, -1,
    -1, -1, -1]]

/-- The 90th percentile of `rPadded`, computed over the entire array, is 0:
the nineteen zeros pull the interpolation index onto a zero entry. -/
theorem percentile_rPadded :
    percentile (allVals
      [[10, 9, 0, 0, 0, 0, 0, 0, 0, 0, 0, 0, 0, 0, 0, 0, 0, 0, 0, 0, 0]])
      90 = 0 := by
  have ht : (18 : ℤ).toNat = 18 := rfl
  norm_num [percentile, sortAsc, insertSorted, allVals, ht]

/-- The 90th percentile of `rBare` over the entire array is 9.9. -/
theorem percentile_rBare :
    percentile (allVals [[(10 : ℚ), 9]]) 90 = 99 / 10 := by
  norm_num [percentile, sortAsc, insertSorted, allVals]

/-- The 90th percentile of `rSentinel` over the entire array is −1: the
sentinel values participate in the percentile. -/
theorem percentile_rSentinel :
    percentile (allVals
      [[10, 9, -1, -1, -1, -1, -1, -1, -1, -1, -1, -1, -1, -1, -1, -1, -1,
        -1, -1, -1, -1]]) 90 = -1 := by
  have ht : (18 : ℤ).toNat = 18 := rfl
  norm_num [percentile, sortAsc, insertSorted, allVals, ht]

/-- C10: the downsampler's qualifying test is `value > 90th percentile of
the entire array` — zeros and sentinel cells included — so which cells
qualify depends on the zero and sentinel values present: the three rasters
have identical positive cells `[10, 9]`, yet 2, 1 and 2 cells qualify
respectively, their whole-array percentiles are 0, 9.9 and −1, and on
`rPadded` the whole-array percentile differs from the percentile taken
over populated cells only. -/
theorem qualifying_depends_on_zeros_and_sentinel :
    ((allVals rPadded).filter (fun v => decide (0 < v)) = [10, 9] ∧
      (allVals rBare).filter (fun v => decide (0 < v)) = [10, 9] ∧
      (allVals rSentinel).filter (fun v => decide (0 < v)) = [10, 9]) ∧
    ((qualifyingPoints rPadded trIdentity).length = 2 ∧
      (qualifyingPoints rBare trIdentity).length = 1 ∧
      (qualifyingPoints rSentinel trIdentity).length = 2) ∧
    (percentile (allVals rPadded) 90 = 0 ∧
      percentile (allVals rBare) 90 = 99 / 10 ∧
      percentile (allVals rSentinel) 90 = -1) ∧
    percentile ((allVals rPadded).filter (fun v => decide (0 < v))) 90 ≠
      percentile (allVals rPadded) 90 := by
  have hfilterP : (allVals rPadded).filter (fun v => decide (0 < v)) =
      [10, 9] := by
    norm_num [rPadded, allVals, List.filter]
  refine ⟨⟨hfilterP, ?_, ?_⟩, ⟨?_, ?_, ?_⟩, ⟨?_, ?_, ?_⟩, ?_⟩
  · norm_num [rBare, allVals, List.filter]
  · norm_num [rSentinel, allVals, List.filter]
  · norm_num [qualifyingPoints, rPadded, percentile_rPadded, cellsWhere,
      cellAt, List.range_succ, List.range_zero, List.filter]
  · norm_num [qualifyingPoints, rBare, percentile_rBare, cellsWhere,
      cellAt, List.range_succ, List.range_zero, List.filter]
  · norm_num [qualifyingPoints, rSentinel, percentile_rSentinel, cellsWhere,
      cellAt, List.range_succ, List.range_zero, List.filter]
  · rw [rPadded]
    exact percentile_rPadded
  · rw [rBare]
    exact percentile_rBare
  · rw [rSentinel]
    exact percentile_rSentinel
  · rw [hfilterP, rPadded, percentile_rPadded]
    norm_num [percentile, sortAsc, insertSorted]
